import Mathlib

/-!
# Verification of the pyspot PKCE / OAuth token client

Shallow embedding of the PKCE helpers (`generate_code_verifier`,
`generate_code_challenge`), the scope parser (`parse_scopes`), the `Token`
pydantic model (validation, expiry, serialization round-trip) and the
`OAuthCallbackHandler.do_GET` redirect handler, together with theorems
settling the specification claims about them.

Bytes are modelled as `List Nat` with values < 256 where it matters;
32-bit machine words are `Nat` reduced with `% 2 ^ 32`; timestamps
(pendulum `DateTime`) are epoch seconds as `Int`; Python exceptions are
`Option`/failure values.
-/

namespace Pyspot

/-! ## 32-bit words and byte strings -/

/-- Truncate to a 32-bit word. -/
def w32 (n : Nat) : Nat := n % 4294967296

/-- 32-bit rotate right. -/
def rotr (n x : Nat) : Nat := w32 ((x >>> n) ||| (x <<< (32 - n)))

/-- Logical shift right. -/
def shr (n x : Nat) : Nat := x >>> n

/-- Big-endian byte expansion: `k` bytes, most significant first. -/
def beBytes : Nat → Nat → List Nat
  | 0, _ => []
  | k + 1, n => beBytes k (n >>> 8) ++ [n % 256]

/-- Big-endian word from a byte list. -/
def wordOfBytes (bs : List Nat) : Nat :=
  bs.foldl (fun acc b => acc * 256 + b % 256) 0

/-! ## SHA-256 (FIPS 180-4, as computed by Python's `hashlib.sha256`) -/

def sha256K : List Nat :=
  [1116352408, 1899447441, 3049323471, 3921009573, 961987163, 1508970993,
   2453635748, 2870763221, 3624381080, 310598401, 607225278, 1426881987,
   1925078388, 2162078206, 2614888103, 3248222580, 3835390401, 4022224774,
   264347078, 604807628, 770255983, 1249150122, 1555081692, 1996064986,
   2554220882, 2821834349, 2952996808, 3210313671, 3336571891, 3584528711,
   113926993, 338241895, 666307205, 773529912, 1294757372, 1396182291,
   1695183700, 1986661051, 2177026350, 2456956037, 2730485921, 2820302411,
   3259730800, 3345764771, 3516065817, 3600352804, 4094571909, 275423344,
   430227734, 506948616, 659060556, 883997877, 958139571, 1322822218,
   1537002063, 1747873779, 1955562222, 2024104815, 2227730452, 2361852424,
   2428436474, 2756734187, 3204031479, 3329325298]

/-- The eight 32-bit working variables / hash state. -/
structure Hash8 where
  h0 : Nat
  h1 : Nat
  h2 : Nat
  h3 : Nat
  h4 : Nat
  h5 : Nat
  h6 : Nat
  h7 : Nat

def sha256H0 : Hash8 :=
  ⟨1779033703, 3144134277, 1013904242, 2773480762,
   1359893119, 2600822924, 528734635, 1541459225⟩

def smallSigma0 (x : Nat) : Nat := (rotr 7 x) ^^^ (rotr 18 x) ^^^ (shr 3 x)

def smallSigma1 (x : Nat) : Nat := (rotr 17 x) ^^^ (rotr 19 x) ^^^ (shr 10 x)

def bigSigma0 (x : Nat) : Nat := (rotr 2 x) ^^^ (rotr 13 x) ^^^ (rotr 22 x)

def bigSigma1 (x : Nat) : Nat := (rotr 6 x) ^^^ (rotr 11 x) ^^^ (rotr 25 x)

/-- Padding: append `128`, zeros to 56 mod 64, then the bit length as
eight big-endian bytes. -/
def sha256pad (msg : List Nat) : List Nat :=
  msg ++ 128 :: (List.replicate ((119 - msg.length % 64) % 64) 0
    ++ beBytes 8 (8 * msg.length))

/-- Extend the 16 message words to 64 schedule words. -/
def scheduleExtend : Nat → List Nat → List Nat
  | 0, ws => ws
  | k + 1, ws =>
    let n := ws.length
    let next := w32 (ws.getD (n - 16) 0 + smallSigma0 (ws.getD (n - 15) 0)
      + ws.getD (n - 7) 0 + smallSigma1 (ws.getD (n - 2) 0))
    scheduleExtend k (ws ++ [next])

def schedule (block : List Nat) : List Nat :=
  scheduleExtend 48 ((List.range 16).map fun i => wordOfBytes ((block.drop (4 * i)).take 4))

/-- One compression round. -/
def sha256round (k w : Nat) (s : Hash8) : Hash8 :=
  let ch := (s.h4 &&& s.h5) ^^^ ((s.h4 ^^^ 4294967295) &&& s.h6)
  let maj := (s.h0 &&& s.h1) ^^^ (s.h0 &&& s.h2) ^^^ (s.h1 &&& s.h2)
  let t1 := w32 (s.h7 + bigSigma1 s.h4 + ch + k + w)
  let t2 := w32 (bigSigma0 s.h0 + maj)
  ⟨w32 (t1 + t2), s.h0, s.h1, s.h2, w32 (s.h3 + t1), s.h4, s.h5, s.h6⟩

/-- Compress one 64-byte block into the state. -/
def sha256compress (s : Hash8) (block : List Nat) : Hash8 :=
  let ws := schedule block
  let f := (List.range 64).foldl
    (fun st i => sha256round (sha256K.getD i 0) (ws.getD i 0) st) s
  ⟨w32 (s.h0 + f.h0), w32 (s.h1 + f.h1), w32 (s.h2 + f.h2), w32 (s.h3 + f.h3),
   w32 (s.h4 + f.h4), w32 (s.h5 + f.h5), w32 (s.h6 + f.h6), w32 (s.h7 + f.h7)⟩

/-- Fold the compression over consecutive 64-byte blocks.  The first
argument is recursion fuel; any fuel at least the number of blocks gives
the true result, and `sha256` passes the padded length, which is ample. -/
def sha256blocks : Nat → Hash8 → List Nat → Hash8
  | 0, s, _ => s
  | _, s, [] => s
  | fuel + 1, s, rest =>
    sha256blocks fuel (sha256compress s (rest.take 64)) (rest.drop 64)

/-- SHA-256 digest of a byte string: 32 bytes. -/
def sha256 (msg : List Nat) : List Nat :=
  let padded := sha256pad msg
  let f := sha256blocks padded.length sha256H0 padded
  beBytes 4 f.h0 ++ beBytes 4 f.h1 ++ beBytes 4 f.h2 ++ beBytes 4 f.h3 ++
  beBytes 4 f.h4 ++ beBytes 4 f.h5 ++ beBytes 4 f.h6 ++ beBytes 4 f.h7

/-! ## UTF-8 encoding (Python `str.encode("utf-8")`) -/

def utf8EncodeChar (c : Char) : List Nat :=
  let n := c.toNat
  if n < 128 then [n]
  else if n < 2048 then [192 ||| (n >>> 6), 128 ||| (n &&& 63)]
  else if n < 65536 then
    [224 ||| (n >>> 12), 128 ||| ((n >>> 6) &&& 63), 128 ||| (n &&& 63)]
  else
    [240 ||| (n >>> 18), 128 ||| ((n >>> 12) &&& 63),
     128 ||| ((n >>> 6) &&& 63), 128 ||| (n &&& 63)]

def utf8Encode (s : String) : List Nat := (s.data.map utf8EncodeChar).flatten

/-! ## URL-safe base64 (Python `base64.urlsafe_b64encode`)

The source manipulates the encoding as a byte string (`rstrip(b"=")`,
then `decode("utf-8")`); the spec speaks of the encoded *string* with
trailing `=` characters stripped.  Both levels are modelled:
`b64encodeBytes` produces the byte values the Python `bytes` object
holds, `b64encodeChars` the corresponding characters. -/

/-- The URL-safe base64 alphabet as ASCII byte values:
`A`–`Z`, `a`–`z`, `0`–`9`, `-`, `_`. -/
def b64ByteTable : List Nat :=
  (List.range 26).map (fun i => 65 + i) ++ (List.range 26).map (fun i => 97 + i)
    ++ (List.range 10).map (fun i => 48 + i) ++ [45, 95]

/-- The URL-safe base64 alphabet as characters. -/
def b64CharTable : List Char :=
  "ABCDEFGHIJKLMNOPQRSTUVWXYZabcdefghijklmnopqrstuvwxyz0123456789-_".data

/-- The four 6-bit indices of a full 3-byte group. -/
def b64indices3 (b1 b2 b3 : Nat) : List Nat :=
  let n := ((b1 % 256) <<< 16) ||| ((b2 % 256) <<< 8) ||| (b3 % 256)
  [(n >>> 18) &&& 63, (n >>> 12) &&& 63, (n >>> 6) &&& 63, n &&& 63]

/-- Base64-encode to byte values; `61` is the ASCII code of `=`. -/
def b64encodeBytes : List Nat → List Nat
  | [] => []
  | [b1] =>
    let n := (b1 % 256) <<< 16
    [b64ByteTable.getD ((n >>> 18) &&& 63) 0, b64ByteTable.getD ((n >>> 12) &&& 63) 0,
     61, 61]
  | [b1, b2] =>
    let n := ((b1 % 256) <<< 16) ||| ((b2 % 256) <<< 8)
    [b64ByteTable.getD ((n >>> 18) &&& 63) 0, b64ByteTable.getD ((n >>> 12) &&& 63) 0,
     b64ByteTable.getD ((n >>> 6) &&& 63) 0, 61]
  | b1 :: b2 :: b3 :: rest =>
    (b64indices3 b1 b2 b3).map (fun i => b64ByteTable.getD i 0) ++ b64encodeBytes rest

/-- Base64-encode to characters (the spec-level view of the same encoding). -/
def b64encodeChars : List Nat → List Char
  | [] => []
  | [b1] =>
    let n := (b1 % 256) <<< 16
    [b64CharTable.getD ((n >>> 18) &&& 63) '\x00',
     b64CharTable.getD ((n >>> 12) &&& 63) '\x00', '=', '=']
  | [b1, b2] =>
    let n := ((b1 % 256) <<< 16) ||| ((b2 % 256) <<< 8)
    [b64CharTable.getD ((n >>> 18) &&& 63) '\x00',
     b64CharTable.getD ((n >>> 12) &&& 63) '\x00',
     b64CharTable.getD ((n >>> 6) &&& 63) '\x00', '=']
  | b1 :: b2 :: b3 :: rest =>
    (b64indices3 b1 b2 b3).map (fun i => b64CharTable.getD i '\x00') ++ b64encodeChars rest

/-- Python `bytes.rstrip(bytes([b]))`: drop all trailing bytes equal to `b`. -/
def pyRstrip (b : Nat) (l : List Nat) : List Nat :=
  ((l.reverse).dropWhile (fun x => x == b)).reverse

/-- Strip all trailing occurrences of a character (the spec-level strip). -/
def rstripChar (c : Char) (l : List Char) : List Char :=
  ((l.reverse).dropWhile (fun x => x == c)).reverse

/-- Python `bytes.decode("utf-8")` restricted to ASCII byte values, which is
all `urlsafe_b64encode` ever produces: each byte becomes the character with
the same code point. -/
def asciiDecode (bs : List Nat) : String := String.mk (bs.map Char.ofNat)

/-! ## The PKCE pair (`pyspot.utils` / `SpotifyOAuthClient` static methods) -/

/-- Python `string.ascii_letters + string.digits`: the population
`random.choices` draws from. -/
def verifierAlphabet : List Char :=
  "abcdefghijklmnopqrstuvwxyzABCDEFGHIJKLMNOPQRSTUVWXYZ0123456789".data

/-- `generate_code_verifier(length)`:
`"".join(random.choices(ascii_letters + digits, k=length))`.
`random.choices` makes `length` independent draws, each selecting the
population element at a uniformly random index below the population size;
the random source is modelled by the index stream `randIdx`, reduced
modulo the population size exactly as each draw's index is in range. -/
def generate_code_verifier (length : Nat) (randIdx : Nat → Nat) : String :=
  String.mk ((List.range length).map fun i =>
    verifierAlphabet.getD (randIdx i % verifierAlphabet.length) 'a')

/-- `generate_code_challenge(verifier)`:
`urlsafe_b64encode(sha256(verifier.encode("utf-8")).digest()).rstrip(b"=").decode("utf-8")`. -/
def generate_code_challenge (verifier : String) : String :=
  asciiDecode (pyRstrip 61 (b64encodeBytes (sha256 (utf8Encode verifier))))

/-- The challenge as the spec words it: "computes the SHA-256 digest of the
UTF-8 encoding of `verifier`, encodes the digest using URL-safe base64, and
strips trailing `=` padding characters" — stated at the string level. -/
def specGenerateChallenge (verifier : String) : String :=
  String.mk (rstripChar '=' (b64encodeChars (sha256 (utf8Encode verifier))))

/-! ## `custom_types.scope.Scope` -/

/-- The `Scope` enum: one member per permission string. -/
inductive Scope where
  | APP_REMOTE_CONTROL
  | PLAYLIST_MODIFY_PRIVATE
  | PLAYLIST_MODIFY_PUBLIC
  | PLAYLIST_READ_COLLABORATIVE
  | PLAYLIST_READ_PRIVATE
  | STREAMING
  | UGC_IMAGE_UPLOAD
  | USER_FOLLOW_MODIFY
  | USER_FOLLOW_READ
  | USER_LIBRARY_MODIFY
  | USER_LIBRARY_READ
  | USER_MODIFY_PLAYBACK_STATE
  | USER_READ_CURRENTLY_PLAYING
  | USER_READ_EMAIL
  | USER_READ_PLAYBACK_POSITION
  | USER_READ_PLAYBACK_STATE
  | USER_READ_PRIVATE
  | USER_READ_RECENTLY_PLAYED
  | USER_TOP_READ
deriving DecidableEq, Repr, Fintype

/-- The string value of each enum member. -/
def Scope.value : Scope → String
  | .APP_REMOTE_CONTROL => "app-remote-control"
  | .PLAYLIST_MODIFY_PRIVATE => "playlist-modify-private"
  | .PLAYLIST_MODIFY_PUBLIC => "playlist-modify-public"
  | .PLAYLIST_READ_COLLABORATIVE => "playlist-read-collaborative"
  | .PLAYLIST_READ_PRIVATE => "playlist-read-private"
  | .STREAMING => "streaming"
  | .UGC_IMAGE_UPLOAD => "ugc-image-upload"
  | .USER_FOLLOW_MODIFY => "user-follow-modify"
  | .USER_FOLLOW_READ => "user-follow-read"
  | .USER_LIBRARY_MODIFY => "user-library-modify"
  | .USER_LIBRARY_READ => "user-library-read"
  | .USER_MODIFY_PLAYBACK_STATE => "user-modify-playback-state"
  | .USER_READ_CURRENTLY_PLAYING => "user-read-currently-playing"
  | .USER_READ_EMAIL => "user-read-email"
  | .USER_READ_PLAYBACK_POSITION => "user-read-playback-position"
  | .USER_READ_PLAYBACK_STATE => "user-read-playback-state"
  | .USER_READ_PRIVATE => "user-read-private"
  | .USER_READ_RECENTLY_PLAYED => "user-read-recently-played"
  | .USER_TOP_READ => "user-top-read"

/-- `Scope(s)`: value lookup in the enum; `none` models the `ValueError`
Python raises for a string that is no member's value. -/
def scopeOfString (s : String) : Option Scope :=
  if s = "app-remote-control" then some .APP_REMOTE_CONTROL
  else if s = "playlist-modify-private" then some .PLAYLIST_MODIFY_PRIVATE
  else if s = "playlist-modify-public" then some .PLAYLIST_MODIFY_PUBLIC
  else if s = "playlist-read-collaborative" then some .PLAYLIST_READ_COLLABORATIVE
  else if s = "playlist-read-private" then some .PLAYLIST_READ_PRIVATE
  else if s = "streaming" then some .STREAMING
  else if s = "ugc-image-upload" then some .UGC_IMAGE_UPLOAD
  else if s = "user-follow-modify" then some .USER_FOLLOW_MODIFY
  else if s = "user-follow-read" then some .USER_FOLLOW_READ
  else if s = "user-library-modify" then some .USER_LIBRARY_MODIFY
  else if s = "user-library-read" then some .USER_LIBRARY_READ
  else if s = "user-modify-playback-state" then some .USER_MODIFY_PLAYBACK_STATE
  else if s = "user-read-currently-playing" then some .USER_READ_CURRENTLY_PLAYING
  else if s = "user-read-email" then some .USER_READ_EMAIL
  else if s = "user-read-playback-position" then some .USER_READ_PLAYBACK_POSITION
  else if s = "user-read-playback-state" then some .USER_READ_PLAYBACK_STATE
  else if s = "user-read-private" then some .USER_READ_PRIVATE
  else if s = "user-read-recently-played" then some .USER_READ_RECENTLY_PLAYED
  else if s = "user-top-read" then some .USER_TOP_READ
  else none

/-! ## `pyspot.utils.parse_scopes` (string overload) -/

/-- Python `str.split(sep)` for a one-character separator: splitting the
empty string gives `[""]`, and consecutive separators give empty parts. -/
def pySplit (sep : Char) : List Char → List (List Char)
  | [] => [[]]
  | c :: rest =>
    if c = sep then [] :: pySplit sep rest
    else
      match pySplit sep rest with
      | [] => [[c]]
      | g :: gs => (c :: g) :: gs

/-- Python `s.replace(" ", "")`: remove every space. -/
def pyRemoveSpaces (l : List Char) : List Char := l.filter (fun c => c ≠ ' ')

/-- `[Scope(scope) for scope in parts]`: the comprehension raises at the
first invalid value, so the whole call fails if any part is invalid. -/
def mapScopes : List (List Char) → Option (List Scope)
  | [] => some []
  | p :: ps =>
    match scopeOfString (String.mk p), mapScopes ps with
    | some s, some rest => some (s :: rest)
    | _, _ => none

/-- `parse_scopes(scopes: str)`:
`[Scope(scope) for scope in scopes.replace(" ", "").split(",")]`,
with `none` modelling the `ValueError` raised for an invalid scope name. -/
def parse_scopes (scopes : String) : Option (List Scope) :=
  mapScopes (pySplit ',' (pyRemoveSpaces scopes.data))

/-! ## The `Token` pydantic model -/

/-- A value reaching the `expires_at` before-validator: pydantic hands it
the raw input, which may be an integer timestamp, a string (as parsed
from JSON), or an already-constructed `DateTime` (modelled as epoch
seconds). -/
inductive RawDateTime where
  | int (n : Int)
  | str (s : String)
  | dt (t : Int)
deriving DecidableEq, Repr

/-- `Token.set_expires_at_from_timestamp`: the `mode="before"` validator.
`if isinstance(v, int): return from_timestamp(v)` — for any non-integer
input the Python function falls off the end and returns `None`, which
then fails the `DateTime` field validation; `none` models that
validation error.  `from_timestamp` is the identity on epoch seconds in
this model. -/
def set_expires_at_from_timestamp : RawDateTime → Option Int
  | .int n => some n
  | .str _ => none
  | .dt _ => none

/-- The raw field values handed to the `Token` pydantic constructor. -/
structure RawToken where
  access_token : String
  token_type : String
  expires_in : Int
  refresh_token : String
  scope : List String
  expires_at : RawDateTime
deriving DecidableEq, Repr

/-- A validated `Token`.  `expires_at` is a `DateTime`, modelled as epoch
seconds. -/
structure Token where
  access_token : String
  token_type : String
  expires_in : Int
  refresh_token : String
  scope : List Scope
  expires_at : Int
deriving DecidableEq, Repr

/-- Pydantic validation of the `Token` model: `token_type` is declared
`t.Literal["Bearer"]`, so any other string is a validation error; each
scope string is coerced to the `Scope` enum by value; `expires_at` goes
through the before-validator and must come out a `DateTime`.  `none`
models a raised `ValidationError`. -/
def Token.validate (raw : RawToken) : Option Token :=
  if raw.token_type = "Bearer" then
    match mapScopes (raw.scope.map String.data),
        set_expires_at_from_timestamp raw.expires_at with
    | some sc, some t =>
      some ⟨raw.access_token, raw.token_type, raw.expires_in,
            raw.refresh_token, sc, t⟩
    | _, _ => none
  else none

/-- `Token.expired`: `return self.expires_at < DateTime.now()`, with the
current time passed explicitly. -/
def Token.expired (tok : Token) (now : Int) : Bool :=
  decide (tok.expires_at < now)

/-! ### JSON serialization of a Token

Pydantic's JSON dump writes `access_token`, `token_type`, `expires_in`
and `refresh_token` verbatim, each `Scope` as its enum value string, and
the `expires_at` `DateTime` as an ISO-8601 string `YYYY-MM-DDTHH:MM:SS+00:00`.
The date is computed from the epoch-second timestamp with the standard
civil-from-days algorithm. -/

/-- Decimal digits of a natural number (fuel-based, most significant
first). -/
def natDigitsAux : Nat → Nat → List Char
  | 0, _ => []
  | fuel + 1, n =>
    if n < 10 then [Char.ofNat (48 + n)]
    else natDigitsAux fuel (n / 10) ++ [Char.ofNat (48 + n % 10)]

def natDigits (n : Nat) : List Char := natDigitsAux (n + 1) n

/-- Left-pad with zeros to the given width. -/
def padZeros (width : Nat) (l : List Char) : List Char :=
  List.replicate (width - l.length) '0' ++ l

/-- Proleptic-Gregorian date of a day number (days since 1970-01-01). -/
def civilFromDays (day : Int) : Int × Nat × Nat :=
  let z := day + 719468
  let era : Int := z.ediv 146097
  let doe : Nat := (z - era * 146097).toNat
  let yoe : Nat := (doe - doe / 1460 + doe / 36524 - doe / 146096) / 365
  let doy : Nat := doe - (365 * yoe + yoe / 4 - yoe / 100)
  let mp : Nat := (5 * doy + 2) / 153
  let d : Nat := doy - (153 * mp + 2) / 5 + 1
  let m : Nat := if mp < 10 then mp + 3 else mp - 9
  let y : Int := era * 400 + yoe + (if m ≤ 2 then 1 else 0)
  (y, m, d)

/-- ISO-8601 UTC rendering of an epoch-second timestamp, as pydantic
serializes the `expires_at` `DateTime`. -/
def isoOfTimestamp (t : Int) : String :=
  let day := t.ediv 86400
  let sod := (t.emod 86400).toNat
  let ymd := civilFromDays day
  let y := ymd.1
  let ystr := if y < 0 then '-' :: padZeros 4 (natDigits y.natAbs)
    else padZeros 4 (natDigits y.toNat)
  String.mk (ystr ++ '-' :: padZeros 2 (natDigits ymd.2.1)
    ++ '-' :: padZeros 2 (natDigits ymd.2.2)
    ++ 'T' :: padZeros 2 (natDigits (sod / 3600))
    ++ ':' :: padZeros 2 (natDigits (sod % 3600 / 60))
    ++ ':' :: padZeros 2 (natDigits (sod % 60)) ++ "+00:00".data)

/-- The JSON representation of a Token, as the raw field values a
re-parse would hand back to the constructor: `expires_at` comes back as
the ISO datetime string, scopes as their value strings, the rest
verbatim. -/
def Token.dump (tok : Token) : RawToken :=
  ⟨tok.access_token, tok.token_type, tok.expires_in, tok.refresh_token,
   tok.scope.map Scope.value, .str (isoOfTimestamp tok.expires_at)⟩

/-! ## `OAuthCallbackHandler.do_GET` -/

/-- The HTML page the handler always writes. -/
def successBody : String :=
  "<html><body><h1>Authorization complete. You can close this window.</h1></body></html>"

/-- What one invocation of `do_GET` does: either it completes an HTTP
response (with the given status, body, and whether a token exchange was
performed first), or it raises an exception and sends nothing. -/
inductive GetOutcome where
  | response (status : Nat) (body : String) (fetchedToken : Bool)
  | raised (exception : String)
deriving DecidableEq, Repr

/-- `dict(kv for ...)` then `.get(key)`: later pairs overwrite earlier
ones, so the last binding wins. -/
def dictGet (key : String) (pairs : List (String × String)) : Option String :=
  ((pairs.filter (fun kv => kv.1 = key)).getLast?).map (fun kv => kv.2)

/-- `dict(qc.split("=") for qc in ...)`: every fragment must split into
exactly two parts, otherwise `dict` raises a `ValueError`. -/
def parsePairs : List (List Char) → Option (List (String × String))
  | [] => some []
  | q :: qs =>
    match pySplit '=' q with
    | [k, v] => (parsePairs qs).map (fun r => (String.mk k, String.mk v) :: r)
    | _ => none

/-- `OAuthCallbackHandler.do_GET`:
```
query = self.path.split("?")[-1]
params = dict(qc.split("=") for qc in query.split("&"))
code = params.get("code")
if code:
    token_json = client.fetch_token(...)   # `client` is an undefined name here
    ...
self.send_response(200); ...; self.wfile.write(success page)
```
If `code` is present and non-empty the body of the `if` runs and
immediately hits the free variable `client` (never bound in the handler
or the module), raising `NameError` before any response is sent.
Otherwise — `code` absent or empty, including every `error=...`
redirect — the handler skips the exchange and unconditionally answers
HTTP 200 with the success page. -/
def do_GET (path : String) : GetOutcome :=
  let query := (pySplit '?' path.data).getLastD []
  match parsePairs (pySplit '&' query) with
  | none => .raised "ValueError"
  | some params =>
    match dictGet "code" params with
    | some code => if code ≠ "" then .raised "NameError" else .response 200 successBody false
    | none => .response 200 successBody false

/-- The comma-joining of scope-name fragments that the spec's
"comma-separated string" denotes. -/
def joinSep (sep : Char) : List (List Char) → List Char
  | [] => []
  | [p] => p
  | p :: q :: ps => p ++ sep :: joinSep sep (q :: ps)

/-! ## General helper lemmas -/

theorem getD_mem {α : Type} (l : List α) (d : α) (i : Nat) (h : i < l.length) :
    l.getD i d ∈ l := by
  rw [List.getD_eq_getElem l d h]
  exact List.getElem_mem h

theorem beBytes_length : ∀ (k n : Nat), (beBytes k n).length = k := by
  intro k
  induction k with
  | zero => intro n; rfl
  | succ k ih => intro n; simp [beBytes, ih]

theorem sha256_length (msg : List Nat) : (sha256 msg).length = 32 := by
  simp [sha256, beBytes_length]

/-! ## Test vectors

`sha256` against the FIPS 180-4 "abc" vector, and the full challenge
pipeline against the PKCE example of RFC 7636 appendix B. -/

set_option maxRecDepth 10000 in
theorem sha256_abc_vector :
    sha256 (utf8Encode "abc") =
      [186, 120, 22, 191, 143, 1, 207, 234, 65, 65, 64, 222,
       93, 174, 34, 35, 176, 3, 97, 163, 150, 23, 122, 156,
       180, 16, 255, 97, 242, 0, 21, 173] := by decide

set_option maxRecDepth 10000 in
set_option maxHeartbeats 1000000 in
theorem rfc7636_challenge_vector :
    generate_code_challenge "dBjftJeZ4CVP-mB92K27uhbUJU1p1r_wW1gFWFOEjXk" =
      "E9Melhoa2OwvFrEMTJguCHaoeK1t8URWbuGJSstw-cM" := by decide

/-! ## C2 — verifier length and alphabet -/

/-- C2: for every length and every random index stream,
`generate_code_verifier(length)` returns a string of exactly `length`
characters, each drawn from the 62-character alphabet
a–z, A–Z, 0–9 and no other characters. -/
theorem generate_code_verifier_length_alphabet (len : Nat) (randIdx : Nat → Nat) :
    (generate_code_verifier len randIdx).length = len
    ∧ (∀ c ∈ (generate_code_verifier len randIdx).data, c ∈ verifierAlphabet)
    ∧ verifierAlphabet.length = 62 := by
  refine ⟨?_, ?_, by decide⟩
  · show (List.map _ (List.range len)).length = len
    simp
  · intro c hc
    have hc' : c ∈ List.map (fun i =>
        verifierAlphabet.getD (randIdx i % verifierAlphabet.length) 'a')
        (List.range len) := hc
    rw [List.mem_map] at hc'
    obtain ⟨i, _, rfl⟩ := hc'
    exact getD_mem _ _ _ (Nat.mod_lt _ (by decide))

/-! ## C3 — no range check on the verifier length -/

set_option maxRecDepth 10000 in
/-- C3 (failing input): the source performs no range validation, so a
length outside the PKCE-mandated range [43, 128] is silently accepted:
`generate_code_verifier(10)` returns a 10-character string and
`generate_code_verifier(200)` a 200-character string, with no failure. -/
theorem generate_code_verifier_no_range_check :
    (generate_code_verifier 10 (fun _ => 0)).length = 10
    ∧ (generate_code_verifier 200 (fun _ => 0)).length = 200 := by decide

/-! ## C4 — the redirect handler answers 200 unconditionally -/

/-- C4 (failing input): on a redirect carrying `error=access_denied` —
and likewise on one with neither `code` nor `error` — `do_GET` performs
no token exchange, surfaces no failure, and responds HTTP 200 with the
"Authorization complete" page. -/
theorem do_GET_silent_200 :
    do_GET "/callback?error=access_denied" = .response 200 successBody false
    ∧ do_GET "/callback?state=xyz" = .response 200 successBody false := by decide

/-! ## C5 — `Token.expired` uses a strict comparison -/

/-- C5 (counterexample): at the instant the current time equals
`expires_at`, the code's `expires_at < now` comparison yields `false`,
while the claim's "current time ≥ expires_at" predicts `true`. -/
theorem token_expired_at_boundary :
    (Token.mk "at" "Bearer" 3600 "rt" [] 1000).expired 1000 = false
    ∧ (1000 : Int) ≥ (Token.mk "at" "Bearer" 3600 "rt" [] 1000).expires_at := by decide

/-- C5 (amended): `Token.expired` is true exactly when the current time
is strictly greater than `expires_at`; in particular, for a token whose
`expires_at` is `T + 3600` (issuance `T` plus `expires_in = 3600`),
`expired` is false at `T + 3599` and true at `T + 3601`. -/
theorem token_expired_iff (tok : Token) (now T : Int) :
    (tok.expired now = true ↔ tok.expires_at < now)
    ∧ (tok.expires_at = T + 3600 →
        tok.expired (T + 3599) = false ∧ tok.expired (T + 3601) = true) := by
  constructor
  · exact decide_eq_true_iff
  · intro h
    simp only [Token.expired, h, decide_eq_true_iff, decide_eq_false_iff_not]
    omega

/-- Witness for `token_expired_iff` at a concrete token and times. -/
theorem token_expired_iff_witness :
    (Token.mk "at" "Bearer" 3600 "rt" [] 3600).expired 3599 = false
    ∧ (Token.mk "at" "Bearer" 3600 "rt" [] 3600).expired 3601 = true :=
  (token_expired_iff (Token.mk "at" "Bearer" 3600 "rt" [] 3600) 0 0).2 (by decide)

/-! ## C7 — `token_type` must be the literal "Bearer" -/

/-- C7: pydantic's `t.Literal["Bearer"]` declaration makes construction
fail for every `token_type` other than `"Bearer"`, and succeed (all other
fields being valid) when it is `"Bearer"`. -/
theorem token_type_literal_bearer (raw : RawToken) :
    (raw.token_type ≠ "Bearer" → Token.validate raw = none)
    ∧ ∀ (a r : String) (ei n : Int),
        (Token.validate (RawToken.mk a "Bearer" ei r [] (.int n))).isSome = true := by
  constructor
  · intro h
    simp [Token.validate, h]
  · intro a r ei n
    rfl

/-- Witness for `token_type_literal_bearer`: `token_type = "mac"` is
rejected, `"Bearer"` is accepted. -/
theorem token_type_literal_bearer_witness :
    Token.validate (RawToken.mk "at" "mac" 3600 "rt" [] (.int 0)) = none
    ∧ (Token.validate (RawToken.mk "at" "Bearer" 3600 "rt" [] (.int 0))).isSome = true :=
  ⟨(token_type_literal_bearer (RawToken.mk "at" "mac" 3600 "rt" [] (.int 0))).1 (by decide),
   (token_type_literal_bearer (RawToken.mk "at" "mac" 3600 "rt" [] (.int 0))).2 "at" "rt" 3600 0⟩

/-! ## C6 — the serialization round-trip fails -/

/-- C6 (failing input): a `Token` built from an integer `expires_at`
timestamp validates fine, but re-validating its own JSON dump fails:
the dump renders `expires_at` as the ISO datetime string, and the
`mode="before"` validator returns `None` for any non-integer input, so
deserialization raises instead of round-tripping. -/
theorem token_roundtrip_fails :
    Token.validate (RawToken.mk "at" "Bearer" 3600 "rt" ["user-top-read"] (.int 1700000000))
      = some (Token.mk "at" "Bearer" 3600 "rt" [.USER_TOP_READ] 1700000000)
    ∧ (Token.dump (Token.mk "at" "Bearer" 3600 "rt" [.USER_TOP_READ] 1700000000)).expires_at
      = .str "2023-11-14T22:13:20+00:00"
    ∧ Token.validate (Token.dump (Token.mk "at" "Bearer" 3600 "rt" [.USER_TOP_READ] 1700000000))
      = none := by decide

/-! ## C10 — `parse_scopes("")` fails -/

/-- C10: splitting the empty string on commas yields `[""]`, the empty
string is not a valid `Scope` value, and so `parse_scopes("")` — which is
exactly what `constants.py` runs when the `SCOPES` environment variable
is unset or empty — raises instead of returning an empty scope list. -/
theorem parse_scopes_empty_fails :
    pySplit ',' (pyRemoveSpaces "".data) = [[]]
    ∧ scopeOfString "" = none
    ∧ parse_scopes "" = none := by decide

/-! ## C8 — scope strings: commas work, spaces do not -/

theorem pySplit_no_sep (sep : Char) :
    ∀ l : List Char, (∀ c ∈ l, c ≠ sep) → pySplit sep l = [l]
  | [], _ => rfl
  | c :: rest, h => by
    have hc : c ≠ sep := h c (by simp)
    have ih := pySplit_no_sep sep rest (fun x hx => h x (by simp [hx]))
    simp only [pySplit, if_neg hc, ih]

theorem pySplit_append (sep : Char) (p rest : List Char)
    (hp : ∀ c ∈ p, c ≠ sep) :
    pySplit sep (p ++ sep :: rest) = p :: pySplit sep rest := by
  induction p with
  | nil =>
    simp [pySplit]
  | cons c q ih =>
    have hc : c ≠ sep := hp c (by simp)
    have ih' := ih (fun x hx => hp x (by simp [hx]))
    simp only [List.cons_append, pySplit, if_neg hc]
    rw [show q.append (sep :: rest) = q ++ sep :: rest from rfl, ih']

theorem pySplit_joinSep (sep : Char) :
    ∀ parts : List (List Char), parts ≠ [] →
      (∀ p ∈ parts, ∀ c ∈ p, c ≠ sep) →
      pySplit sep (joinSep sep parts) = parts
  | [], h, _ => absurd rfl h
  | [p], _, hs => by
    simp only [joinSep]
    exact pySplit_no_sep sep p (hs p (by simp))
  | p :: q :: ps, _, hs => by
    have ih := pySplit_joinSep sep (q :: ps) (by simp)
      (fun r hr => hs r (by simp at hr ⊢; tauto))
    simp only [joinSep]
    rw [pySplit_append sep p _ (hs p (by simp)), ih]

theorem mem_joinSep (sep : Char) :
    ∀ (parts : List (List Char)) (c : Char), c ∈ joinSep sep parts →
      c = sep ∨ ∃ p ∈ parts, c ∈ p
  | [], c, h => by simp [joinSep] at h
  | [p], c, h => by
    simp only [joinSep] at h
    exact Or.inr ⟨p, by simp, h⟩
  | p :: q :: ps, c, h => by
    simp only [joinSep, List.mem_append, List.mem_cons] at h
    rcases h with h | h | h
    · exact Or.inr ⟨p, by simp, h⟩
    · exact Or.inl h
    · rcases mem_joinSep sep (q :: ps) c h with h' | ⟨r, hr, hc⟩
      · exact Or.inl h'
      · exact Or.inr ⟨r, by simp at hr ⊢; tauto, hc⟩

theorem pyRemoveSpaces_joinSep (sep : Char) (hsep : sep ≠ ' ')
    (parts : List (List Char))
    (hs : ∀ p ∈ parts, ∀ c ∈ p, c ≠ ' ') :
    pyRemoveSpaces (joinSep sep parts) = joinSep sep parts := by
  unfold pyRemoveSpaces
  rw [List.filter_eq_self]
  intro a ha
  rcases mem_joinSep sep parts a ha with rfl | ⟨p, hp, hc⟩
  · simpa using hsep
  · simpa using hs p hp a hc

/-- Every scope value string is free of commas and spaces. -/
theorem scope_value_chars :
    ∀ s : Scope, ∀ c ∈ (Scope.value s).data, c ≠ ',' ∧ c ≠ ' ' := by decide

/-- `Scope(str(s))` recovers `s` for every enum member. -/
theorem scopeOfString_value :
    ∀ s : Scope, scopeOfString (String.mk (Scope.value s).data) = some s := by decide

theorem mapScopes_map_value :
    ∀ l : List Scope, mapScopes (l.map (fun s => (Scope.value s).data)) = some l
  | [] => rfl
  | s :: rest => by
    simp only [List.map_cons, mapScopes, scopeOfString_value s,
      mapScopes_map_value rest]

/-- C8 (amended): for every nonempty list of valid scope names joined by
commas, `parse_scopes` returns the corresponding list of `Scope` values.
(The space-separated form of the claim fails: see
`parse_scopes_space_separated_fails`.) -/
theorem parse_scopes_comma_separated (l : List Scope) (h : l ≠ []) :
    parse_scopes (String.mk (joinSep ','
      (l.map (fun s => (Scope.value s).data)))) = some l := by
  unfold parse_scopes
  show mapScopes (pySplit ',' (pyRemoveSpaces (joinSep ','
    (l.map (fun s => (Scope.value s).data))))) = some l
  rw [pyRemoveSpaces_joinSep ',' (by decide) _
      (by rintro p hp c hc
          rw [List.mem_map] at hp
          obtain ⟨s, _, rfl⟩ := hp
          exact (scope_value_chars s c hc).2),
    pySplit_joinSep ',' _
      (by simpa using h)
      (by rintro p hp c hc
          rw [List.mem_map] at hp
          obtain ⟨s, _, rfl⟩ := hp
          exact (scope_value_chars s c hc).1),
    mapScopes_map_value]

/-- Witness for `parse_scopes_comma_separated`: the comma-joined pair
`"user-top-read,user-read-email"` parses to the two scopes. -/
theorem parse_scopes_comma_separated_witness :
    parse_scopes (String.mk (joinSep ','
      ([Scope.USER_TOP_READ, Scope.USER_READ_EMAIL].map
        (fun s => (Scope.value s).data))))
      = some [Scope.USER_TOP_READ, Scope.USER_READ_EMAIL] :=
  parse_scopes_comma_separated [Scope.USER_TOP_READ, Scope.USER_READ_EMAIL] (by decide)

/-- C8 (counterexample): joining two valid scope names with a space
instead of a comma fails — `replace(" ", "")` glues them into one
invalid name — so the claimed space-separated form is not accepted. -/
theorem parse_scopes_space_separated_fails :
    parse_scopes "user-top-read user-read-email"
      ≠ some [Scope.USER_TOP_READ, Scope.USER_READ_EMAIL]
    ∧ parse_scopes "user-top-read user-read-email" = none := by decide

/-! ## Base64 facts for C1 and C9 -/

theorem b64ByteTable_length : b64ByteTable.length = 64 := by decide

theorem and63_lt (n : Nat) : n &&& 63 < 64 :=
  Nat.lt_succ_of_le Nat.and_le_right

theorem getD_b64ByteTable_mem (i : Nat) (h : i < 64) :
    b64ByteTable.getD i 0 ∈ b64ByteTable :=
  getD_mem _ _ _ (by rw [b64ByteTable_length]; exact h)

theorem b64ByteTable_ne_61 : ∀ x ∈ b64ByteTable, x ≠ 61 := by decide

/-- Every byte of a base64 encoding is an alphabet byte or the pad `=`. -/
theorem mem_b64encodeBytes :
    ∀ (l : List Nat), ∀ x ∈ b64encodeBytes l, x ∈ b64ByteTable ∨ x = 61
  | [], x, hx => by simp [b64encodeBytes] at hx
  | [b1], x, hx => by
    simp only [b64encodeBytes, List.mem_cons, List.not_mem_nil, or_false] at hx
    rcases hx with rfl | rfl | rfl | rfl
    · exact Or.inl (getD_b64ByteTable_mem _ (and63_lt _))
    · exact Or.inl (getD_b64ByteTable_mem _ (and63_lt _))
    · exact Or.inr rfl
    · exact Or.inr rfl
  | [b1, b2], x, hx => by
    simp only [b64encodeBytes, List.mem_cons, List.not_mem_nil, or_false] at hx
    rcases hx with rfl | rfl | rfl | rfl
    · exact Or.inl (getD_b64ByteTable_mem _ (and63_lt _))
    · exact Or.inl (getD_b64ByteTable_mem _ (and63_lt _))
    · exact Or.inl (getD_b64ByteTable_mem _ (and63_lt _))
    · exact Or.inr rfl
  | b1 :: b2 :: b3 :: (r :: rs), x, hx => by
    simp only [b64encodeBytes, b64indices3, List.map_cons, List.map_nil,
      List.cons_append, List.nil_append, List.mem_cons] at hx
    rcases hx with rfl | rfl | rfl | rfl | hx
    · exact Or.inl (getD_b64ByteTable_mem _ (and63_lt _))
    · exact Or.inl (getD_b64ByteTable_mem _ (and63_lt _))
    · exact Or.inl (getD_b64ByteTable_mem _ (and63_lt _))
    · exact Or.inl (getD_b64ByteTable_mem _ (and63_lt _))
    · exact mem_b64encodeBytes (r :: rs) x hx
  | [b1, b2, b3], x, hx => by
    simp only [b64encodeBytes, b64indices3, List.map_cons, List.map_nil,
      List.append_nil, List.mem_cons, List.not_mem_nil, or_false] at hx
    rcases hx with rfl | rfl | rfl | rfl
    · exact Or.inl (getD_b64ByteTable_mem _ (and63_lt _))
    · exact Or.inl (getD_b64ByteTable_mem _ (and63_lt _))
    · exact Or.inl (getD_b64ByteTable_mem _ (and63_lt _))
    · exact Or.inl (getD_b64ByteTable_mem _ (and63_lt _))

theorem ofNat_b64Table_lt :
    ∀ i < 64, Char.ofNat (b64ByteTable.getD i 0) = b64CharTable.getD i '\x00' := by
  decide

/-- The character table is the byte table read through `Char.ofNat`. -/
theorem ofNat_b64Table (i : Nat) :
    Char.ofNat (b64ByteTable.getD i 0) = b64CharTable.getD i '\x00' := by
  rcases Nat.lt_or_ge i 64 with h | h
  · exact ofNat_b64Table_lt i h
  · have h1 : b64ByteTable.getD i 0 = 0 :=
      List.getD_eq_default _ _ (by rw [b64ByteTable_length]; exact h)
    have h2 : b64CharTable.getD i '\x00' = '\x00' :=
      List.getD_eq_default _ _ (by rw [show b64CharTable.length = 64 from by decide]; exact h)
    rw [h1, h2]

theorem ofNat_61 : Char.ofNat 61 = '=' := by decide

/-- The character-level encoding is the byte-level encoding decoded
pointwise. -/
theorem b64encodeChars_eq_map :
    ∀ l : List Nat, b64encodeChars l = (b64encodeBytes l).map Char.ofNat
  | [] => rfl
  | [b1] => by
    simp only [b64encodeChars, b64encodeBytes, List.map_cons, List.map_nil,
      ofNat_b64Table, ofNat_61]
  | [b1, b2] => by
    simp only [b64encodeChars, b64encodeBytes, List.map_cons, List.map_nil,
      ofNat_b64Table, ofNat_61]
  | b1 :: b2 :: b3 :: rest => by
    simp only [b64encodeChars, b64encodeBytes, b64indices3, List.map_cons,
      List.map_nil, List.map_append, ofNat_b64Table,
      b64encodeChars_eq_map rest]

theorem dropWhile_congr_mem {α : Type} (p q : α → Bool) :
    ∀ l : List α, (∀ x ∈ l, p x = q x) → l.dropWhile p = l.dropWhile q
  | [], _ => rfl
  | x :: xs, h => by
    have hx := h x (by simp)
    have ih := dropWhile_congr_mem p q xs (fun y hy => h y (by simp [hy]))
    simp only [List.dropWhile_cons, hx, ih]

theorem beq_ofNat_61 : ∀ x ∈ b64ByteTable, (Char.ofNat x == '=') = (x == 61) := by
  decide

/-- `rstrip(b"=")` on the byte level, then ASCII decoding, is trailing-`=`
stripping on the character level. -/
theorem map_ofNat_pyRstrip (l : List Nat)
    (h : ∀ x ∈ l, x ∈ b64ByteTable ∨ x = 61) :
    (pyRstrip 61 l).map Char.ofNat = rstripChar '=' (l.map Char.ofNat) := by
  unfold pyRstrip rstripChar
  rw [← List.map_reverse, List.dropWhile_map, ← List.map_reverse]
  congr 1
  congr 1
  apply dropWhile_congr_mem
  intro x hx
  rw [List.mem_reverse] at hx
  rcases h x hx with hmem | rfl
  · exact (beq_ofNat_61 x hmem).symm
  · decide

/-! ## C1 — the challenge is the spec's pipeline, and a pure function -/

/-- C1: `generate_code_challenge` computes exactly the URL-safe base64
encoding of the SHA-256 digest of the UTF-8 encoding of the verifier
with all trailing `=` padding stripped, as the spec words it.  Both
sides are Lean functions of the verifier alone, so two calls with the
same verifier always yield the same challenge. -/
theorem generate_code_challenge_eq_spec (verifier : String) :
    generate_code_challenge verifier = specGenerateChallenge verifier := by
  unfold generate_code_challenge specGenerateChallenge asciiDecode
  rw [map_ofNat_pyRstrip _ (mem_b64encodeBytes _), ← b64encodeChars_eq_map]

/-! ## C9 — the challenge is always 43 characters -/

theorem pyRstrip_append (b : Nat) (xs ys : List Nat)
    (h : pyRstrip b ys ≠ []) :
    pyRstrip b (xs ++ ys) = xs ++ pyRstrip b ys := by
  unfold pyRstrip at h ⊢
  rw [List.reverse_append, List.dropWhile_append]
  have hne : (ys.reverse.dropWhile (fun x => x == b)).isEmpty = false := by
    cases e : ys.reverse.dropWhile (fun x => x == b) with
    | nil => rw [e] at h; simp at h
    | cons a as => rfl
  rw [hne]
  simp [List.reverse_append]

/-- Stripping the pad from a four-byte group whose third byte is not the
pad removes exactly the final `=`. -/
theorem pyRstrip_three_pad (t1 t2 t3 : Nat) (h : (t3 == 61) = false) :
    pyRstrip 61 [t1, t2, t3, 61] = [t1, t2, t3] := by
  unfold pyRstrip
  rw [show ([t1, t2, t3, 61] : List Nat).reverse = [61, t3, t2, t1] from by simp]
  simp [List.dropWhile_cons, h]

/-- Length of the stripped base64 encoding when the input length is
`2 mod 3`: one pad byte is written and then stripped. -/
theorem rstrip_b64_length :
    ∀ l : List Nat, l.length % 3 = 2 →
      (pyRstrip 61 (b64encodeBytes l)).length = 4 * (l.length / 3) + 3
  | [], h => by simp at h
  | [b1], h => by simp at h
  | [b1, b2], _ => by
    have ht3 : (b64ByteTable.getD
        (((((b1 % 256) <<< 16) ||| ((b2 % 256) <<< 8)) >>> 6) &&& 63) 0 == 61)
        = false := by
      rw [beq_eq_false_iff_ne]
      exact b64ByteTable_ne_61 _ (getD_b64ByteTable_mem _ (and63_lt _))
    have e : b64encodeBytes [b1, b2] =
        [b64ByteTable.getD (((((b1 % 256) <<< 16) ||| ((b2 % 256) <<< 8)) >>> 18) &&& 63) 0,
         b64ByteTable.getD (((((b1 % 256) <<< 16) ||| ((b2 % 256) <<< 8)) >>> 12) &&& 63) 0,
         b64ByteTable.getD (((((b1 % 256) <<< 16) ||| ((b2 % 256) <<< 8)) >>> 6) &&& 63) 0,
         61] := rfl
    rw [e, pyRstrip_three_pad _ _ _ ht3]
    simp
  | b1 :: b2 :: b3 :: rest, h => by
    have h' : rest.length % 3 = 2 := by
      simp only [List.length_cons] at h
      omega
    have ih := rstrip_b64_length rest h'
    have hne : pyRstrip 61 (b64encodeBytes rest) ≠ [] := by
      intro e
      rw [e] at ih
      simp at ih
    show (pyRstrip 61 ((b64indices3 b1 b2 b3).map _ ++ b64encodeBytes rest)).length
      = 4 * ((b1 :: b2 :: b3 :: rest).length / 3) + 3
    rw [pyRstrip_append _ _ _ hne, List.length_append, ih]
    simp only [b64indices3, List.map_cons, List.map_nil, List.length_cons,
      List.length_nil]
    rw [show rest.length + 1 + 1 + 1 = rest.length + 3 from by omega,
      Nat.add_div_right _ (by omega)]
    omega

/-- C9: for every verifier string, the generated challenge has exactly 43
characters — the URL-safe base64 encoding of the 32-byte SHA-256 digest
with its single `=` pad stripped. -/
theorem generate_code_challenge_length (verifier : String) :
    (generate_code_challenge verifier).length = 43 := by
  unfold generate_code_challenge asciiDecode
  show (List.map Char.ofNat
    (pyRstrip 61 (b64encodeBytes (sha256 (utf8Encode verifier))))).length = 43
  rw [List.length_map, rstrip_b64_length _ (by rw [sha256_length]),
    sha256_length]

end Pyspot
